import Mathlib

/-!
Verification of the query-time answering pipeline of the DocuMind-AI
repository: the grounding validator with its circuit breaker
(code/validator.py), the confidence scorer (code/confidence.py) and the
RAG engine's two pipeline entry points (code/rag.py).

Modelling conventions:
* Python floats are modelled as exact rationals; the float literals 0.2,
  0.7, 0.3, 5.0 and the decimal rounding of round(x, 2) are represented
  exactly over the rationals, with round-half-to-even tie breaking as in
  Python's round.
* The external services (embedding, vector store, generation LLM, judge
  LLM) are opaque in the source; one query's interaction with them is an
  environment value fixing the vector-store response and the behaviour
  (response text, exception or timeout) of the generation and judge
  calls.
* Python str.strip() is modelled by pyStrip below, removing whitespace
  characters from both ends of the character list of a string.
* A Python dict result such as the validator's
  {"is_valid": ..., "reason": ..., "circuit_open": True} is modelled by a
  structure whose three Boolean marker fields default to false, a true
  marker standing for the presence of the corresponding extra key.
-/

/-- Whitespace predicate used by the model of Python str.strip(). -/
def isSpace (c : Char) : Bool := c.isWhitespace

/-- Model of Python str.strip() with no arguments: remove whitespace
characters from both ends of the string. -/
def pyStrip (s : String) : String :=
  String.mk (((s.data.dropWhile isSpace).reverse.dropWhile isSpace).reverse)

/-- Timeout bound (seconds) put on one judge call, from
code/validator.py (VALIDATION_TIMEOUT = 15.0).  Wall-clock time is not
modelled; a judge call that would exceed the bound is the timeout
outcome of JudgeResult. -/
def VALIDATION_TIMEOUT : ℚ := 15

/-- Failure threshold of the circuit breaker, from code/validator.py
(MAX_FAILURES_BEFORE_OPEN = 3). -/
def MAX_FAILURES_BEFORE_OPEN : ℕ := 3

/-- Mutable state of GroundingValidator: the consecutive-failure counter
self.failure_count and the flag self.circuit_open (underscore-prefixed
in the source). -/
structure CircuitState where
  failure_count : ℕ
  circuit_open : Bool
deriving Repr, DecidableEq

/-- Initial validator state set by GroundingValidator.__init__:
counter 0, circuit closed. -/
def initialCircuit : CircuitState := { failure_count := 0, circuit_open := false }

/-- Behaviour of one judge call (the chain ainvoke/invoke in
code/validator.py): a returned string, a timeout (asyncio.TimeoutError
carrying its str(e) message), or any other exception carrying its
str(e) message. -/
inductive JudgeResult where
  | ok (text : String)
  | timeout (msg : String)
  | error (msg : String)
deriving Repr, DecidableEq

/-- True when the judge call fails (timeout or exception) rather than
returning a verdict string. -/
def JudgeResult.isFailure : JudgeResult → Bool
  | .ok _ => false
  | .timeout _ => true
  | .error _ => true

/-- True exactly for the timeout outcome of a judge call. -/
def JudgeResult.isTimeout : JudgeResult → Bool
  | .timeout _ => true
  | _ => false

/-- Model of the dict returned by GroundingValidator.validate_async /
validate: keys is_valid and reason, plus the optional marker keys
circuit_open, timeout and error (a true field models the key being
present with value True). -/
structure ValidationDict where
  is_valid : Bool
  reason : Option String
  circuit_open : Bool := false
  timeout : Bool := false
  error : Bool := false
deriving Repr, DecidableEq

/-- GroundingValidator._parse_result: strip the judge's output; the
literal token VALID is a pass, any other text is a failure whose reason
is that stripped text. -/
def GroundingValidator.parse_result (result : String) : ValidationDict :=
  let r := pyStrip result
  if r = "VALID" then { is_valid := true, reason := none }
  else { is_valid := false, reason := some r }

/-- GroundingValidator.reset_circuit: close the circuit and clear the
consecutive-failure counter. -/
def GroundingValidator.reset_circuit (_st : CircuitState) : CircuitState :=
  { circuit_open := false, failure_count := 0 }

/-- GroundingValidator.validate_async, as a function of the current
circuit state and the judge call's behaviour; returns the outcome dict
and the next circuit state. -/
def GroundingValidator.validate_async (st : CircuitState) (judge : JudgeResult) :
    ValidationDict × CircuitState :=
  if st.circuit_open then
    ({ is_valid := true, reason := some "Validation skipped (circuit open)",
       circuit_open := true }, st)
  else
    match judge with
    | .ok result =>
        (GroundingValidator.parse_result result, { st with failure_count := 0 })
    | .timeout _ =>
        let fc := st.failure_count + 1
        ({ is_valid := true, reason := some "Validation timeout, answer accepted",
           timeout := true },
         { failure_count := fc,
           circuit_open := if MAX_FAILURES_BEFORE_OPEN ≤ fc then true else st.circuit_open })
    | .error e =>
        let fc := st.failure_count + 1
        ({ is_valid := true, reason := some ("Validation error: " ++ e),
           error := true },
         { failure_count := fc,
           circuit_open := if MAX_FAILURES_BEFORE_OPEN ≤ fc then true else st.circuit_open })

/-- GroundingValidator.validate (synchronous variant): the invoke call
has no asyncio.wait_for wrapper and no dedicated TimeoutError branch, so
a timeout surfaces as an ordinary exception handled by the generic
except branch; the returned string is stripped once at the call site and
again inside parse_result. -/
def GroundingValidator.validate (st : CircuitState) (judge : JudgeResult) :
    ValidationDict × CircuitState :=
  if st.circuit_open then
    ({ is_valid := true, reason := some "Validation skipped (circuit open)",
       circuit_open := true }, st)
  else
    match judge with
    | .ok result =>
        (GroundingValidator.parse_result (pyStrip result), { st with failure_count := 0 })
    | .timeout m =>
        let fc := st.failure_count + 1
        ({ is_valid := true, reason := some ("Validation error: " ++ m),
           error := true },
         { failure_count := fc,
           circuit_open := if MAX_FAILURES_BEFORE_OPEN ≤ fc then true else st.circuit_open })
    | .error e =>
        let fc := st.failure_count + 1
        ({ is_valid := true, reason := some ("Validation error: " ++ e),
           error := true },
         { failure_count := fc,
           circuit_open := if MAX_FAILURES_BEFORE_OPEN ≤ fc then true else st.circuit_open })

/-- Round a rational to the nearest integer with ties broken toward the
even integer, the tie-breaking rule of Python's round. -/
def roundHalfEven (x : ℚ) : ℤ :=
  if x - ⌊x⌋ < 1/2 then ⌊x⌋
  else if 1/2 < x - ⌊x⌋ then ⌊x⌋ + 1
  else if ⌊x⌋ % 2 = 0 then ⌊x⌋ else ⌊x⌋ + 1

/-- Model of Python round(x, 2): round to the nearest multiple of 1/100,
ties to even. -/
def round2 (x : ℚ) : ℚ := (roundHalfEven (100 * x) : ℚ) / 100

/-- ConfidenceScorer.score from code/confidence.py: 0.0 when the
validation verdict is negative; otherwise the weighted sum of the
rescaled mean retrieval score and the chunk-coverage fraction, rounded
to two decimal places. -/
def ConfidenceScorer.score (retrieval_scores : List ℚ) (num_chunks : ℕ)
    (is_valid : Bool) : ℚ :=
  if !is_valid then 0
  else
    let avg_score := retrieval_scores.sum / retrieval_scores.length
    let retrieval_confidence := min (max ((avg_score - 2/10) / (7/10)) 0) 1
    let coverage_confidence := min ((num_chunks : ℚ) / 5) 1
    round2 (7/10 * retrieval_confidence + 3/10 * coverage_confidence)

/-- Payload dict of one point returned by the vector store, as read by
RAGEngine (payload.get of text, file, page); a missing key is none. -/
structure Payload where
  text : Option String
  file : Option String
  page : Option ℤ
deriving Repr, DecidableEq

/-- One scored point of the vector store response; payload none models a
point whose payload attribute is None (the source substitutes the empty
dict for it). -/
structure ScoredPoint where
  score : ℚ
  payload : Option Payload
deriving Repr, DecidableEq

/-- Behaviour of the generation call
(self.client.models.generate_content): a response text, or any
exception carrying str(e). -/
inductive GenResult where
  | ok (text : String)
  | error (msg : String)
deriving Repr, DecidableEq

/-- External behaviour fixed for one query: the vector store's response
for the embedded question, the generation call's behaviour and the judge
call's behaviour.  A query's question text and top_k only influence the
pipeline through these responses, so they are absorbed into the
environment. -/
structure Env where
  results : List ScoredPoint
  gen : GenResult
  judge : JudgeResult
deriving Repr, DecidableEq

/-- Aggregate result dict returned by RAGEngine.ask_async / ask. -/
structure QueryResult where
  answer : String
  sources : List String
  validation : ValidationDict
  confidence : ℚ
deriving Repr, DecidableEq

/-- Modelled from the spec: the fixed "no answer" string DEFAULT_NO_ANSWER
imported by code/rag.py from code/prompts.py, a file absent from the
sources; its exact text is unspecified, only that it is one fixed
constant. -/
def DEFAULT_NO_ANSWER : String :=
  "I could not find an answer in the provided documents."

/-- Modelled from the spec: the fixed "LLM error" answer string
LLM_ERROR_ANSWER imported by code/rag.py from code/prompts.py, a file
absent from the sources. -/
def LLM_ERROR_ANSWER : String :=
  "The language model failed to generate an answer."

/-- Modelled from the spec: the fixed "validation failed" answer string
VALIDATION_FAILED_ANSWER imported by code/rag.py from code/prompts.py, a
file absent from the sources. -/
def VALIDATION_FAILED_ANSWER : String :=
  "The generated answer could not be validated against the retrieved context."

/-- Data kept for one retrieved record surviving the completeness
filter: its text (appended to context_chunks), its source label
(added to the sources set) and its relevance score (appended to
retrieval_scores). -/
structure ChunkRow where
  text : String
  label : String
  score : ℚ
deriving Repr, DecidableEq

/-- The completeness-filtering loop of RAGEngine.ask_async / ask over
the retrieved points: substitute the empty payload for a missing one,
drop a record whose text or file is missing or empty (Python falsiness)
or whose page is None, and keep text, the label file#page-N and the
score, in retrieval order. -/
def chunkRows (results : List ScoredPoint) : List ChunkRow :=
  results.filterMap fun r =>
    let payload := r.payload.getD { text := none, file := none, page := none }
    match payload.text, payload.file, payload.page with
    | some t, some f, some p =>
        if t = "" ∨ f = "" then none
        else some { text := t, label := f ++ "#page-" ++ toString p, score := r.score }
    | _, _, _ => none

/-- Model of Python sorted(sources) where sources is a set of the
collected labels: the distinct labels in ascending lexicographic
order. -/
def sortedSources (labels : List String) : List String :=
  List.insertionSort (· ≤ ·) labels.dedup

/-- RAGEngine.ask_async from code/rag.py, as a function of the query's
environment and the validator's circuit state; returns the result dict
and the validator state after the query.  The engine's defensive
try/except around the validator call is unreachable here because
validate_async is total, exactly as the validator's own contract
promises. -/
def RAGEngine.ask_async (env : Env) (st : CircuitState) : QueryResult × CircuitState :=
  if env.results.isEmpty then
    ({ answer := DEFAULT_NO_ANSWER, sources := [],
       validation := { is_valid := false, reason := some "No relevant context retrieved." },
       confidence := 0 }, st)
  else
    let rows := chunkRows env.results
    let context_chunks := rows.map ChunkRow.text
    let source_labels := rows.map ChunkRow.label
    let retrieval_scores := rows.map ChunkRow.score
    if context_chunks.isEmpty then
      ({ answer := DEFAULT_NO_ANSWER, sources := [],
         validation := { is_valid := false,
                         reason := some "Retrieved chunks were empty or malformed." },
         confidence := 0 }, st)
    else
      match env.gen with
      | .error e =>
          ({ answer := LLM_ERROR_ANSWER, sources := sortedSources source_labels,
             validation := { is_valid := false, reason := some ("LLM error: " ++ e) },
             confidence := 0 }, st)
      | .ok text =>
          let answer := pyStrip text
          let vres := GroundingValidator.validate_async st env.judge
          let validation := vres.1
          let confidence := ConfidenceScorer.score retrieval_scores
            context_chunks.length validation.is_valid
          if !validation.is_valid then
            ({ answer := VALIDATION_FAILED_ANSWER, sources := sortedSources source_labels,
               validation := validation, confidence := confidence }, vres.2)
          else
            ({ answer := answer, sources := sortedSources source_labels,
               validation := validation, confidence := confidence }, vres.2)

/-- RAGEngine.ask from code/rag.py, the synchronous entry point: the
same stages as ask_async, calling the synchronous
GroundingValidator.validate. -/
def RAGEngine.ask (env : Env) (st : CircuitState) : QueryResult × CircuitState :=
  if env.results.isEmpty then
    ({ answer := DEFAULT_NO_ANSWER, sources := [],
       validation := { is_valid := false, reason := some "No relevant context retrieved." },
       confidence := 0 }, st)
  else
    let rows := chunkRows env.results
    let context_chunks := rows.map ChunkRow.text
    let source_labels := rows.map ChunkRow.label
    let retrieval_scores := rows.map ChunkRow.score
    if context_chunks.isEmpty then
      ({ answer := DEFAULT_NO_ANSWER, sources := [],
         validation := { is_valid := false,
                         reason := some "Retrieved chunks were empty or malformed." },
         confidence := 0 }, st)
    else
      match env.gen with
      | .error e =>
          ({ answer := LLM_ERROR_ANSWER, sources := sortedSources source_labels,
             validation := { is_valid := false, reason := some ("LLM error: " ++ e) },
             confidence := 0 }, st)
      | .ok text =>
          let answer := pyStrip text
          let vres := GroundingValidator.validate st env.judge
          let validation := vres.1
          let confidence := ConfidenceScorer.score retrieval_scores
            context_chunks.length validation.is_valid
          if !validation.is_valid then
            ({ answer := VALIDATION_FAILED_ANSWER, sources := sortedSources source_labels,
               validation := validation, confidence := confidence }, vres.2)
          else
            ({ answer := answer, sources := sortedSources source_labels,
               validation := validation, confidence := confidence }, vres.2)

/-- Written from the spec's words (section 4.3), for comparison with
the source-derived ConfidenceScorer.score: retrievalConfidence =
clamp((mean(retrievalScores) - 0.2) / 0.7, 0.0, 1.0), coverageConfidence
= clamp(chunkCount / 5.0, 0.0, 1.0), final score = 0.7 *
retrievalConfidence + 0.3 * coverageConfidence rounded to 2 decimal
places, where clamp(x, lo, hi) = min (max x lo) hi and mean is sum over
length. -/
def specConfidenceFormula (retrievalScores : List ℚ) (chunkCount : ℕ) : ℚ :=
  let retrievalConfidence :=
    min (max ((retrievalScores.sum / retrievalScores.length - 2/10) / (7/10)) 0) 1
  let coverageConfidence := min (max ((chunkCount : ℚ) / 5) 0) 1
  round2 (7/10 * retrievalConfidence + 3/10 * coverageConfidence)

/-! ### List and string helper lemmas -/

/-- Dropping a prefix by p twice is the same as dropping it once. -/
theorem dropWhile_dropWhile {α : Type} (p : α → Bool) (l : List α) :
    (l.dropWhile p).dropWhile p = l.dropWhile p := by
  induction l with
  | nil => rfl
  | cons a l ih =>
    by_cases h : p a
    · rw [List.dropWhile_cons_of_pos h]; exact ih
    · rw [List.dropWhile_cons_of_neg h, List.dropWhile_cons_of_neg h]

/-- The first element surviving dropWhile p fails p. -/
theorem dropWhile_head_false {α : Type} (p : α → Bool) :
    ∀ (l : List α) {a : α} {t : List α}, l.dropWhile p = a :: t → p a = false := by
  intro l
  induction l with
  | nil => intro a t h; simp at h
  | cons b l ih =>
    intro a t h
    by_cases hb : p b
    · rw [List.dropWhile_cons_of_pos hb] at h; exact ih h
    · rw [List.dropWhile_cons_of_neg hb] at h
      cases h
      simpa using hb

/-- A list whose first element fails p is unchanged by dropWhile p. -/
theorem dropWhile_eq_self_of_head {α : Type} (p : α → Bool) {l : List α} {a : α}
    (hh : l.head? = some a) (ha : p a = false) : l.dropWhile p = l := by
  cases l with
  | nil => simp at hh
  | cons b t =>
    have : b = a := by simpa using hh
    subst this
    exact List.dropWhile_cons_of_neg (by simp [ha])

/-- A non-empty list has a last element. -/
theorem getLast?_isSome_of_ne_nil {α : Type} : ∀ {v : List α}, v ≠ [] → ∃ x, v.getLast? = some x := by
  intro v h
  induction v with
  | nil => exact absurd rfl h
  | cons a w ih =>
    cases w with
    | nil => exact ⟨a, rfl⟩
    | cons c w' =>
      obtain ⟨x, hx⟩ := ih (by simp)
      exact ⟨x, by rw [List.getLast?_cons_cons]; exact hx⟩

/-- Stripping whitespace from both ends of a character list is
idempotent. -/
theorem stripList_idem (l : List Char) :
    (((((l.dropWhile isSpace).reverse.dropWhile isSpace).reverse).dropWhile
        isSpace).reverse.dropWhile isSpace).reverse
      = ((l.dropWhile isSpace).reverse.dropWhile isSpace).reverse := by
  rcases hB : (l.dropWhile isSpace).reverse.dropWhile isSpace with _ | ⟨b, t⟩
  · simp
  · have hsuf : (l.dropWhile isSpace).reverse.dropWhile isSpace <:+
        (l.dropWhile isSpace).reverse := List.dropWhile_suffix isSpace
    rw [hB] at hsuf
    obtain ⟨u, hu⟩ := hsuf
    have h6 : ((l.dropWhile isSpace).reverse).getLast? = ((b :: t).getLast?).or u.getLast? := by
      rw [← hu]; exact List.getLast?_append
    have h5 : ((l.dropWhile isSpace).reverse).getLast? = (l.dropWhile isSpace).head? :=
      List.getLast?_reverse _
    obtain ⟨x, hx⟩ := getLast?_isSome_of_ne_nil (List.cons_ne_nil b t)
    have h9 : (l.dropWhile isSpace).head? = some x := by
      rw [← h5, h6, hx]; rfl
    have hxs : isSpace x = false := by
      rcases hD : l.dropWhile isSpace with _ | ⟨a0, t0⟩
      · rw [hD] at h9; simp at h9
      · rw [hD] at h9
        have hax : a0 = x := by simpa using h9
        exact hax ▸ dropWhile_head_false isSpace l hD
    have hhead : ((b :: t).reverse).head? = some x := by
      rw [List.head?_reverse]; exact hx
    have hstep1 : ((b :: t).reverse).dropWhile isSpace = (b :: t).reverse :=
      dropWhile_eq_self_of_head isSpace hhead hxs
    have hBB : (b :: t).dropWhile isSpace = b :: t := by
      rw [← hB]; exact dropWhile_dropWhile _ _
    rw [hstep1, List.reverse_reverse, hBB]

/-- Stripping a string that is already stripped changes nothing. -/
theorem pyStrip_idem (s : String) : pyStrip (pyStrip s) = pyStrip s := by
  unfold pyStrip
  exact congrArg String.mk (stripList_idem s.data)

/-! ### Rounding lemmas -/

/-- Half-even rounding never goes below the floor. -/
theorem floor_le_roundHalfEven (x : ℚ) : ⌊x⌋ ≤ roundHalfEven x := by
  unfold roundHalfEven
  split_ifs <;> omega

/-- Half-even rounding never exceeds the floor plus one. -/
theorem roundHalfEven_le_floor_add_one (x : ℚ) : roundHalfEven x ≤ ⌊x⌋ + 1 := by
  unfold roundHalfEven
  split_ifs <;> omega

/-- Half-even rounding is monotone. -/
theorem roundHalfEven_mono {x y : ℚ} (h : x ≤ y) :
    roundHalfEven x ≤ roundHalfEven y := by
  rcases lt_or_le ⌊x⌋ ⌊y⌋ with hf | hf
  · calc roundHalfEven x ≤ ⌊x⌋ + 1 := roundHalfEven_le_floor_add_one x
      _ ≤ ⌊y⌋ := by omega
      _ ≤ roundHalfEven y := floor_le_roundHalfEven y
  · have hfe : ⌊x⌋ = ⌊y⌋ := le_antisymm (Int.floor_mono h) hf
    have hr : x - (⌊y⌋ : ℚ) ≤ y - (⌊y⌋ : ℚ) := by linarith
    unfold roundHalfEven
    rw [hfe]
    split_ifs <;> first | omega | linarith

/-- Half-even rounding of an integer is that integer. -/
theorem roundHalfEven_intCast (n : ℤ) : roundHalfEven (n : ℚ) = n := by
  unfold roundHalfEven
  rw [Int.floor_intCast]
  norm_num

/-- Rounding to two decimals is monotone. -/
theorem round2_mono {x y : ℚ} (h : x ≤ y) : round2 x ≤ round2 y := by
  unfold round2
  have h1 : roundHalfEven (100 * x) ≤ roundHalfEven (100 * y) :=
    roundHalfEven_mono (by linarith)
  have h2 : (roundHalfEven (100 * x) : ℚ) ≤ (roundHalfEven (100 * y) : ℚ) := by
    exact_mod_cast h1
  gcongr

/-- Rounding to two decimals keeps nonnegative values nonnegative. -/
theorem round2_nonneg {x : ℚ} (hx : 0 ≤ x) : 0 ≤ round2 x := by
  unfold round2
  have h1 : roundHalfEven ((0 : ℤ) : ℚ) ≤ roundHalfEven (100 * x) :=
    roundHalfEven_mono (by push_cast; linarith)
  rw [roundHalfEven_intCast] at h1
  have h2 : (0 : ℚ) ≤ (roundHalfEven (100 * x) : ℚ) := by exact_mod_cast h1
  positivity

/-- Rounding to two decimals keeps values at most one at most one. -/
theorem round2_le_one {x : ℚ} (hx : x ≤ 1) : round2 x ≤ 1 := by
  unfold round2
  have h1 : roundHalfEven (100 * x) ≤ roundHalfEven ((100 : ℤ) : ℚ) :=
    roundHalfEven_mono (by push_cast; linarith)
  rw [roundHalfEven_intCast] at h1
  have h2 : (roundHalfEven (100 * x) : ℚ) ≤ (100 : ℚ) := by exact_mod_cast h1
  rw [div_le_one (by norm_num)]
  exact h2

/-! ### Scorer helper lemmas -/

/-- Unfolding of the scorer at a negative validation verdict. -/
theorem score_not_valid (s : List ℚ) (n : ℕ) : ConfidenceScorer.score s n false = 0 := rfl

/-- Unfolding of the scorer at a positive validation verdict. -/
theorem score_valid_eq (s : List ℚ) (n : ℕ) :
    ConfidenceScorer.score s n true =
      round2 (7/10 * min (max ((s.sum / s.length - 2/10) / (7/10)) 0) 1
        + 3/10 * min ((n : ℚ) / 5) 1) := rfl

/-- The pre-rounding combination of two clamped quantities stays in the
unit interval. -/
theorem combo_bounds {rc cc : ℚ} (h1 : 0 ≤ rc) (h2 : rc ≤ 1) (h3 : 0 ≤ cc) (h4 : cc ≤ 1) :
    0 ≤ 7/10 * rc + 3/10 * cc ∧ 7/10 * rc + 3/10 * cc ≤ 1 := by
  constructor <;> linarith

/-! ### Pipeline characterization lemmas -/

/-- A non-empty list reports nonempty. -/
theorem isEmpty_false_of_ne_nil {α : Type} {l : List α} (h : l ≠ []) : l.isEmpty = false := by
  cases l with
  | nil => exact absurd rfl h
  | cons a t => rfl

/-- Mapping a non-empty list reports nonempty. -/
theorem map_isEmpty_false {α β : Type} (f : α → β) {l : List α} (h : l ≠ []) :
    (l.map f).isEmpty = false := by
  cases l with
  | nil => exact absurd rfl h
  | cons a t => rfl

/-- Surviving rows force a non-empty retrieval result. -/
theorem results_ne_nil_of_chunkRows {results : List ScoredPoint}
    (h : chunkRows results ≠ []) : results ≠ [] := by
  intro hn
  rw [hn] at h
  exact h rfl

/-- Unfolding of ask_async on an empty vector-store response. -/
theorem ask_async_empty (gen : GenResult) (judge : JudgeResult) (st : CircuitState) :
    RAGEngine.ask_async ⟨[], gen, judge⟩ st =
      ({ answer := DEFAULT_NO_ANSWER, sources := [],
         validation := { is_valid := false, reason := some "No relevant context retrieved." },
         confidence := 0 }, st) := rfl

/-- Unfolding of ask_async when retrieval returns points but the
completeness filter drops them all. -/
theorem ask_async_malformed (results : List ScoredPoint) (gen : GenResult)
    (judge : JudgeResult) (st : CircuitState)
    (h1 : results ≠ []) (h2 : chunkRows results = []) :
    RAGEngine.ask_async ⟨results, gen, judge⟩ st =
      ({ answer := DEFAULT_NO_ANSWER, sources := [],
         validation := { is_valid := false,
                         reason := some "Retrieved chunks were empty or malformed." },
         confidence := 0 }, st) := by
  simp [RAGEngine.ask_async, isEmpty_false_of_ne_nil h1, h2]

/-- Unfolding of ask_async when the generation call raises. -/
theorem ask_async_gen_error (results : List ScoredPoint) (e : String)
    (judge : JudgeResult) (st : CircuitState) (h2 : chunkRows results ≠ []) :
    RAGEngine.ask_async ⟨results, .error e, judge⟩ st =
      ({ answer := LLM_ERROR_ANSWER,
         sources := sortedSources ((chunkRows results).map ChunkRow.label),
         validation := { is_valid := false, reason := some ("LLM error: " ++ e) },
         confidence := 0 }, st) := by
  simp [RAGEngine.ask_async,
    isEmpty_false_of_ne_nil (results_ne_nil_of_chunkRows h2),
    map_isEmpty_false ChunkRow.text h2]

/-- Unfolding of ask_async when the generation call returns text. -/
theorem ask_async_gen_ok (results : List ScoredPoint) (text : String)
    (judge : JudgeResult) (st : CircuitState) (h2 : chunkRows results ≠ []) :
    RAGEngine.ask_async ⟨results, .ok text, judge⟩ st =
      (if (GroundingValidator.validate_async st judge).1.is_valid then
        { answer := pyStrip text,
          sources := sortedSources ((chunkRows results).map ChunkRow.label),
          validation := (GroundingValidator.validate_async st judge).1,
          confidence := ConfidenceScorer.score ((chunkRows results).map ChunkRow.score)
            ((chunkRows results).map ChunkRow.text).length
            (GroundingValidator.validate_async st judge).1.is_valid }
       else
        { answer := VALIDATION_FAILED_ANSWER,
          sources := sortedSources ((chunkRows results).map ChunkRow.label),
          validation := (GroundingValidator.validate_async st judge).1,
          confidence := ConfidenceScorer.score ((chunkRows results).map ChunkRow.score)
            ((chunkRows results).map ChunkRow.text).length
            (GroundingValidator.validate_async st judge).1.is_valid },
       (GroundingValidator.validate_async st judge).2) := by
  cases hv : (GroundingValidator.validate_async st judge).1.is_valid <;>
    simp [RAGEngine.ask_async,
      isEmpty_false_of_ne_nil (results_ne_nil_of_chunkRows h2),
      map_isEmpty_false ChunkRow.text h2, hv]

/-- Unfolding of ask on an empty vector-store response. -/
theorem ask_empty (gen : GenResult) (judge : JudgeResult) (st : CircuitState) :
    RAGEngine.ask ⟨[], gen, judge⟩ st =
      ({ answer := DEFAULT_NO_ANSWER, sources := [],
         validation := { is_valid := false, reason := some "No relevant context retrieved." },
         confidence := 0 }, st) := rfl

/-- Unfolding of ask when the completeness filter drops every point. -/
theorem ask_malformed (results : List ScoredPoint) (gen : GenResult)
    (judge : JudgeResult) (st : CircuitState)
    (h1 : results ≠ []) (h2 : chunkRows results = []) :
    RAGEngine.ask ⟨results, gen, judge⟩ st =
      ({ answer := DEFAULT_NO_ANSWER, sources := [],
         validation := { is_valid := false,
                         reason := some "Retrieved chunks were empty or malformed." },
         confidence := 0 }, st) := by
  simp [RAGEngine.ask, isEmpty_false_of_ne_nil h1, h2]

/-- Unfolding of ask when the generation call raises. -/
theorem ask_gen_error (results : List ScoredPoint) (e : String)
    (judge : JudgeResult) (st : CircuitState) (h2 : chunkRows results ≠ []) :
    RAGEngine.ask ⟨results, .error e, judge⟩ st =
      ({ answer := LLM_ERROR_ANSWER,
         sources := sortedSources ((chunkRows results).map ChunkRow.label),
         validation := { is_valid := false, reason := some ("LLM error: " ++ e) },
         confidence := 0 }, st) := by
  simp [RAGEngine.ask,
    isEmpty_false_of_ne_nil (results_ne_nil_of_chunkRows h2),
    map_isEmpty_false ChunkRow.text h2]

/-- Unfolding of ask when the generation call returns text. -/
theorem ask_gen_ok (results : List ScoredPoint) (text : String)
    (judge : JudgeResult) (st : CircuitState) (h2 : chunkRows results ≠ []) :
    RAGEngine.ask ⟨results, .ok text, judge⟩ st =
      (if (GroundingValidator.validate st judge).1.is_valid then
        { answer := pyStrip text,
          sources := sortedSources ((chunkRows results).map ChunkRow.label),
          validation := (GroundingValidator.validate st judge).1,
          confidence := ConfidenceScorer.score ((chunkRows results).map ChunkRow.score)
            ((chunkRows results).map ChunkRow.text).length
            (GroundingValidator.validate st judge).1.is_valid }
       else
        { answer := VALIDATION_FAILED_ANSWER,
          sources := sortedSources ((chunkRows results).map ChunkRow.label),
          validation := (GroundingValidator.validate st judge).1,
          confidence := ConfidenceScorer.score ((chunkRows results).map ChunkRow.score)
            ((chunkRows results).map ChunkRow.text).length
            (GroundingValidator.validate st judge).1.is_valid },
       (GroundingValidator.validate st judge).2) := by
  cases hv : (GroundingValidator.validate st judge).1.is_valid <;>
    simp [RAGEngine.ask,
      isEmpty_false_of_ne_nil (results_ne_nil_of_chunkRows h2),
      map_isEmpty_false ChunkRow.text h2, hv]

/-! ### Claim C4 -/

/-- C4: for every non-empty list of retrieval scores, chunk count and a
positive validation verdict, ConfidenceScorer.score equals the spec's
formula round(0.7 * clamp((mean - 0.2) / 0.7, 0, 1) + 0.3 *
clamp(chunkCount / 5, 0, 1), 2). -/
theorem C4_score_equals_spec_formula (scores : List ℚ) (n : ℕ) (h : scores ≠ []) :
    ConfidenceScorer.score scores n true = specConfidenceFormula scores n := by
  have hcov : max ((n : ℚ) / 5) 0 = (n : ℚ) / 5 := max_eq_left (by positivity)
  rw [score_valid_eq]
  simp only [specConfidenceFormula]
  rw [hcov]

/-- Witness for C4 at a concrete non-empty score list. -/
theorem C4_witness :
    ([(1:ℚ)/2] ≠ ([] : List ℚ))
    ∧ ConfidenceScorer.score [(1:ℚ)/2] 3 true = specConfidenceFormula [(1:ℚ)/2] 3 :=
  ⟨by decide, C4_score_equals_spec_formula [(1:ℚ)/2] 3 (by decide)⟩

/-! ### Claim C3 -/

/-- C3: whenever the validation outcome carried by the pipeline's result
is invalid, the result's confidence is exactly 0, and the scorer returns
0 for a negative verdict regardless of scores and chunk count. -/
theorem C3_invalid_implies_zero_confidence (scores : List ℚ) (n : ℕ)
    (env : Env) (st : CircuitState)
    (h : (RAGEngine.ask_async env st).1.validation.is_valid = false) :
    ConfidenceScorer.score scores n false = 0
    ∧ (RAGEngine.ask_async env st).1.confidence = 0 := by
  refine ⟨score_not_valid scores n, ?_⟩
  obtain ⟨results, gen, judge⟩ := env
  by_cases h1 : results = []
  · subst h1
    rw [ask_async_empty]
  · by_cases h2 : chunkRows results = []
    · rw [ask_async_malformed results gen judge st h1 h2]
    · cases gen with
      | error e => rw [ask_async_gen_error results e judge st h2]
      | ok text =>
        rw [ask_async_gen_ok results text judge st h2] at h ⊢
        cases hv : (GroundingValidator.validate_async st judge).1.is_valid with
        | true => simp [hv] at h
        | false => simp [score_not_valid]

/-- Witness for C3: a query whose judge rejects the answer. -/
theorem C3_witness :
    ((RAGEngine.ask_async
        ⟨[{ score := 0, payload := some { text := some "T", file := some "a.pdf", page := some 3 } }],
          .ok "ans", .ok "Not grounded."⟩ initialCircuit).1.validation.is_valid = false)
    ∧ (ConfidenceScorer.score [(1:ℚ)] 1 false = 0
       ∧ (RAGEngine.ask_async
            ⟨[{ score := 0, payload := some { text := some "T", file := some "a.pdf", page := some 3 } }],
              .ok "ans", .ok "Not grounded."⟩ initialCircuit).1.confidence = 0) :=
  ⟨by decide,
   C3_invalid_implies_zero_confidence [(1:ℚ)] 1
     ⟨[{ score := 0, payload := some { text := some "T", file := some "a.pdf", page := some 3 } }],
       .ok "ans", .ok "Not grounded."⟩ initialCircuit (by decide)⟩

/-! ### Claim C9 -/

/-- C9: for non-empty score lists and a positive verdict the scorer's
value lies in the unit interval, is monotone in the mean retrieval score
at a fixed chunk count, and is monotone in the chunk count up to 5 at
fixed scores. -/
theorem C9_score_bounds_and_monotone (s s1 s2 : List ℚ) (n n1 n2 : ℕ)
    (hs : s ≠ []) (hs1 : s1 ≠ []) (hs2 : s2 ≠ [])
    (hmean : s1.sum / s1.length ≤ s2.sum / s2.length)
    (hn : n1 ≤ n2) (hn5 : n2 ≤ 5) :
    (0 ≤ ConfidenceScorer.score s n true ∧ ConfidenceScorer.score s n true ≤ 1)
    ∧ ConfidenceScorer.score s1 n true ≤ ConfidenceScorer.score s2 n true
    ∧ ConfidenceScorer.score s n1 true ≤ ConfidenceScorer.score s n2 true := by
  have hbnd : ∀ (t : List ℚ) (m : ℕ),
      0 ≤ ConfidenceScorer.score t m true ∧ ConfidenceScorer.score t m true ≤ 1 := by
    intro t m
    rw [score_valid_eq]
    have hrc1 : 0 ≤ min (max ((t.sum / t.length - 2/10) / (7/10)) 0) 1 :=
      le_min (le_max_right _ _) zero_le_one
    have hrc2 : min (max ((t.sum / t.length - 2/10) / (7/10)) 0) 1 ≤ 1 := min_le_right _ _
    have hcc1 : 0 ≤ min ((m : ℚ) / 5) 1 := le_min (by positivity) zero_le_one
    have hcc2 : min ((m : ℚ) / 5) 1 ≤ 1 := min_le_right _ _
    obtain ⟨hA, hB⟩ := combo_bounds hrc1 hrc2 hcc1 hcc2
    exact ⟨round2_nonneg hA, round2_le_one hB⟩
  refine ⟨hbnd s n, ?_, ?_⟩
  · rw [score_valid_eq, score_valid_eq]
    apply round2_mono
    have hmin : min (max ((s1.sum / s1.length - 2/10) / (7/10)) 0) 1 ≤
        min (max ((s2.sum / s2.length - 2/10) / (7/10)) 0) 1 := by gcongr
    linarith
  · rw [score_valid_eq, score_valid_eq]
    apply round2_mono
    have hcast : (n1 : ℚ) ≤ (n2 : ℚ) := by exact_mod_cast hn
    have hmin : min ((n1 : ℚ) / 5) 1 ≤ min ((n2 : ℚ) / 5) 1 := by gcongr
    linarith

/-- Witness for C9 at concrete inputs. -/
theorem C9_witness :
    (([(1:ℚ)/2] ≠ ([] : List ℚ)) ∧ (1:ℕ) ≤ 2 ∧ (2:ℕ) ≤ 5)
    ∧ ((0 ≤ ConfidenceScorer.score [(1:ℚ)/2] 1 true
        ∧ ConfidenceScorer.score [(1:ℚ)/2] 1 true ≤ 1)
       ∧ ConfidenceScorer.score [(1:ℚ)/2] 1 true ≤ ConfidenceScorer.score [(1:ℚ)/2] 1 true
       ∧ ConfidenceScorer.score [(1:ℚ)/2] 1 true ≤ ConfidenceScorer.score [(1:ℚ)/2] 2 true) :=
  ⟨⟨by decide, by decide, by decide⟩,
   C9_score_bounds_and_monotone [(1:ℚ)/2] [(1:ℚ)/2] [(1:ℚ)/2] 1 1 2
     (by decide) (by decide) (by decide) (le_refl _) (by decide) (by decide)⟩

/-! ### Validator helper lemmas -/

/-- A failing judge call in the Closed state increments the counter and
opens the circuit exactly when the new count reaches the threshold. -/
theorem validate_async_failure_step (st : CircuitState) (f : JudgeResult)
    (hf : f.isFailure = true) (hc : st.circuit_open = false) :
    (GroundingValidator.validate_async st f).2 =
      ⟨st.failure_count + 1, decide (MAX_FAILURES_BEFORE_OPEN ≤ st.failure_count + 1)⟩ := by
  cases f with
  | ok s => simp [JudgeResult.isFailure] at hf
  | timeout m =>
    by_cases hth : MAX_FAILURES_BEFORE_OPEN ≤ st.failure_count + 1 <;>
      simp [GroundingValidator.validate_async, hc, hth]
  | error e =>
    by_cases hth : MAX_FAILURES_BEFORE_OPEN ≤ st.failure_count + 1 <;>
      simp [GroundingValidator.validate_async, hc, hth]

/-- With the circuit open, validate_async short-circuits and leaves the
state untouched. -/
theorem validate_async_open (st : CircuitState) (j : JudgeResult)
    (hopen : st.circuit_open = true) :
    GroundingValidator.validate_async st j =
      ({ is_valid := true, reason := some "Validation skipped (circuit open)",
         circuit_open := true }, st) := by
  simp [GroundingValidator.validate_async, hopen]

/-- For every judge behaviour other than a timeout, the synchronous
validate agrees with validate_async exactly. -/
theorem validate_eq_async_of_not_timeout (st : CircuitState) (j : JudgeResult)
    (hj : j.isTimeout = false) :
    GroundingValidator.validate st j = GroundingValidator.validate_async st j := by
  cases j with
  | ok s =>
    have hp : GroundingValidator.parse_result (pyStrip s) = GroundingValidator.parse_result s := by
      unfold GroundingValidator.parse_result
      rw [pyStrip_idem]
    by_cases hc : st.circuit_open <;>
      simp [GroundingValidator.validate, GroundingValidator.validate_async, hc, hp]
  | timeout m => simp [JudgeResult.isTimeout] at hj
  | error e => rfl

/-- The synchronous and asynchronous validators drive the circuit state
identically for every judge behaviour, timeouts included. -/
theorem validate_state_eq_async (st : CircuitState) (j : JudgeResult) :
    (GroundingValidator.validate st j).2 = (GroundingValidator.validate_async st j).2 := by
  by_cases hc : st.circuit_open <;> cases j <;>
    simp [GroundingValidator.validate, GroundingValidator.validate_async, hc]

/-! ### Claim C1 -/

/-- C1: starting Closed with a zero counter, the circuit is still closed
after two consecutive judge failures, open after exactly three, the
fourth call (and every call in an open state) short-circuits with the
skipped outcome for every judge behaviour without consulting it, the
manual reset returns any state to the initial Closed state, and the
first call after a reset reaches the external judge again and returns
its parsed verdict. -/
theorem C1_circuit_breaker_lifecycle (f1 f2 f3 j j2 : JudgeResult)
    (st4 stAny : CircuitState) (r : String)
    (h1 : f1.isFailure = true) (h2 : f2.isFailure = true) (h3 : f3.isFailure = true)
    (hopen : st4.circuit_open = true) :
    ((GroundingValidator.validate_async initialCircuit f1).2).circuit_open = false
    ∧ ((GroundingValidator.validate_async
        (GroundingValidator.validate_async initialCircuit f1).2 f2).2).circuit_open = false
    ∧ ((GroundingValidator.validate_async (GroundingValidator.validate_async
        (GroundingValidator.validate_async initialCircuit f1).2 f2).2 f3).2).circuit_open = true
    ∧ GroundingValidator.validate_async (GroundingValidator.validate_async
        (GroundingValidator.validate_async
          (GroundingValidator.validate_async initialCircuit f1).2 f2).2 f3).2 j
      = ({ is_valid := true, reason := some "Validation skipped (circuit open)",
           circuit_open := true },
         (GroundingValidator.validate_async (GroundingValidator.validate_async
           (GroundingValidator.validate_async initialCircuit f1).2 f2).2 f3).2)
    ∧ GroundingValidator.validate_async st4 j2
      = ({ is_valid := true, reason := some "Validation skipped (circuit open)",
           circuit_open := true }, st4)
    ∧ GroundingValidator.reset_circuit stAny = initialCircuit
    ∧ GroundingValidator.validate_async (GroundingValidator.reset_circuit stAny) (.ok r)
      = (GroundingValidator.parse_result r, initialCircuit) := by
  have e1 : (GroundingValidator.validate_async initialCircuit f1).2 = ⟨1, false⟩ := by
    rw [validate_async_failure_step initialCircuit f1 h1 rfl]; decide
  have e2 : (GroundingValidator.validate_async (⟨1, false⟩ : CircuitState) f2).2 = ⟨2, false⟩ := by
    rw [validate_async_failure_step _ f2 h2 rfl]; decide
  have e3 : (GroundingValidator.validate_async (⟨2, false⟩ : CircuitState) f3).2 = ⟨3, true⟩ := by
    rw [validate_async_failure_step _ f3 h3 rfl]; decide
  refine ⟨by rw [e1], by rw [e1, e2], by rw [e1, e2, e3], ?_, ?_, rfl, ?_⟩
  · rw [e1, e2, e3]
    exact validate_async_open _ j rfl
  · exact validate_async_open st4 j2 hopen
  · simp [GroundingValidator.reset_circuit, GroundingValidator.validate_async, initialCircuit]

/-- Witness for C1 with three concrete timeouts and concrete open
states. -/
theorem C1_witness :
    ((JudgeResult.timeout "").isFailure = true
     ∧ (⟨5, true⟩ : CircuitState).circuit_open = true)
    ∧ (((GroundingValidator.validate_async initialCircuit (.timeout "")).2).circuit_open = false
    ∧ ((GroundingValidator.validate_async
        (GroundingValidator.validate_async initialCircuit (.timeout "")).2 (.timeout "")).2).circuit_open = false
    ∧ ((GroundingValidator.validate_async (GroundingValidator.validate_async
        (GroundingValidator.validate_async initialCircuit (.timeout "")).2 (.timeout "")).2 (.timeout "")).2).circuit_open = true
    ∧ GroundingValidator.validate_async (GroundingValidator.validate_async
        (GroundingValidator.validate_async
          (GroundingValidator.validate_async initialCircuit (.timeout "")).2 (.timeout "")).2 (.timeout "")).2 (.error "boom")
      = ({ is_valid := true, reason := some "Validation skipped (circuit open)",
           circuit_open := true },
         (GroundingValidator.validate_async (GroundingValidator.validate_async
           (GroundingValidator.validate_async initialCircuit (.timeout "")).2 (.timeout "")).2 (.timeout "")).2)
    ∧ GroundingValidator.validate_async (⟨5, true⟩ : CircuitState) (.ok "VALID")
      = ({ is_valid := true, reason := some "Validation skipped (circuit open)",
           circuit_open := true }, (⟨5, true⟩ : CircuitState))
    ∧ GroundingValidator.reset_circuit (⟨2, true⟩ : CircuitState) = initialCircuit
    ∧ GroundingValidator.validate_async (GroundingValidator.reset_circuit (⟨2, true⟩ : CircuitState)) (.ok "VALID")
      = (GroundingValidator.parse_result "VALID", initialCircuit)) :=
  ⟨⟨by decide, by decide⟩,
   C1_circuit_breaker_lifecycle (.timeout "") (.timeout "") (.timeout "")
     (.error "boom") (.ok "VALID") ⟨5, true⟩ ⟨2, true⟩ "VALID"
     (by decide) (by decide) (by decide) (by decide)⟩

/-! ### Claim C2 -/

/-- C2 as stated is false on the code: on a successful judge call whose
text carries surrounding whitespace, the Invalid reason is the stripped
text, not the judge's verbatim output — parse_result strips before
storing the reason. -/
theorem C2_counterexample :
    (GroundingValidator.validate_async initialCircuit (.ok " Not grounded. ")).1
      = { is_valid := false, reason := some "Not grounded." }
    ∧ (GroundingValidator.validate_async initialCircuit (.ok " Not grounded. ")).1.reason
      ≠ some " Not grounded. " := by
  exact ⟨by decide, by decide⟩

/-- C2 amended: in the Closed state validate_async never raises (it is a
total function here); a successful judge call yields Valid exactly when
the output trims to the literal VALID, any other output yields Invalid
whose reason is the judge's text after trimming whitespace, and the
consecutive-failure counter resets to zero; a timeout or exception
increments the counter and yields the fail-open Degraded outcome
(is_valid true with a timeout/error marker), opening the circuit when
the count reaches the threshold. -/
theorem C2_validate_closed_contract (st : CircuitState) (s m e : String)
    (h : st.circuit_open = false) :
    GroundingValidator.validate_async st (.ok s)
      = (GroundingValidator.parse_result s, { st with failure_count := 0 })
    ∧ (pyStrip s = "VALID" →
        GroundingValidator.parse_result s = { is_valid := true, reason := none })
    ∧ (pyStrip s ≠ "VALID" →
        GroundingValidator.parse_result s = { is_valid := false, reason := some (pyStrip s) })
    ∧ GroundingValidator.validate_async st (.timeout m)
      = ({ is_valid := true, reason := some "Validation timeout, answer accepted",
           timeout := true },
         { failure_count := st.failure_count + 1,
           circuit_open := decide (MAX_FAILURES_BEFORE_OPEN ≤ st.failure_count + 1) })
    ∧ GroundingValidator.validate_async st (.error e)
      = ({ is_valid := true, reason := some ("Validation error: " ++ e),
           error := true },
         { failure_count := st.failure_count + 1,
           circuit_open := decide (MAX_FAILURES_BEFORE_OPEN ≤ st.failure_count + 1) }) := by
  refine ⟨?_, ?_, ?_, ?_, ?_⟩
  · simp [GroundingValidator.validate_async, h]
  · intro hv; simp [GroundingValidator.parse_result, hv]
  · intro hv; simp [GroundingValidator.parse_result, hv]
  · by_cases hth : MAX_FAILURES_BEFORE_OPEN ≤ st.failure_count + 1 <;>
      simp [GroundingValidator.validate_async, h, hth]
  · by_cases hth : MAX_FAILURES_BEFORE_OPEN ≤ st.failure_count + 1 <;>
      simp [GroundingValidator.validate_async, h, hth]

/-- Witness for C2's amended contract at the initial Closed state. -/
theorem C2_witness :
    (initialCircuit.circuit_open = false)
    ∧ (GroundingValidator.validate_async initialCircuit (.ok "  VALID  ")
        = (GroundingValidator.parse_result "  VALID  ",
           { initialCircuit with failure_count := 0 })
    ∧ (pyStrip "  VALID  " = "VALID" →
        GroundingValidator.parse_result "  VALID  " = { is_valid := true, reason := none })
    ∧ (pyStrip "  VALID  " ≠ "VALID" →
        GroundingValidator.parse_result "  VALID  "
          = { is_valid := false, reason := some (pyStrip "  VALID  ") })
    ∧ GroundingValidator.validate_async initialCircuit (.timeout "t")
      = ({ is_valid := true, reason := some "Validation timeout, answer accepted",
           timeout := true },
         { failure_count := initialCircuit.failure_count + 1,
           circuit_open := decide (MAX_FAILURES_BEFORE_OPEN ≤ initialCircuit.failure_count + 1) })
    ∧ GroundingValidator.validate_async initialCircuit (.error "boom")
      = ({ is_valid := true, reason := some ("Validation error: " ++ "boom"),
           error := true },
         { failure_count := initialCircuit.failure_count + 1,
           circuit_open := decide (MAX_FAILURES_BEFORE_OPEN ≤ initialCircuit.failure_count + 1) })) :=
  ⟨rfl, C2_validate_closed_contract initialCircuit "  VALID  " "t" "boom" rfl⟩

/-! ### Claim C10 -/

/-- C10 as stated is false on the code: for the identical judge failure
(a timeout), the synchronous validate and validate_async return
different outcome dicts — the sync path has no timeout branch and
reports a generic validation error instead of the timeout reason — so
the two entry points are not equivalent on timeouts. -/
theorem C10_counterexample :
    GroundingValidator.validate initialCircuit (.timeout "")
      ≠ GroundingValidator.validate_async initialCircuit (.timeout "") := by
  decide

/-- C10 amended: for every query whose judge call does not time out,
ask and ask_async return identical results and identical circuit
states, and validate agrees with validate_async; on a timeout the
outcome dicts differ (sync reports a generic validation error) but the
circuit-breaker state transitions of the two entry points are still
identical for every judge behaviour. -/
theorem C10_sync_async_agree_except_timeout (env env2 : Env) (st : CircuitState)
    (j j2 : JudgeResult)
    (henv : env.judge.isTimeout = false) (hj : j.isTimeout = false) :
    GroundingValidator.validate st j = GroundingValidator.validate_async st j
    ∧ RAGEngine.ask env st = RAGEngine.ask_async env st
    ∧ (GroundingValidator.validate st j2).2 = (GroundingValidator.validate_async st j2).2
    ∧ (RAGEngine.ask env2 st).2 = (RAGEngine.ask_async env2 st).2 := by
  refine ⟨validate_eq_async_of_not_timeout st j hj, ?_, validate_state_eq_async st j2, ?_⟩
  · obtain ⟨results, gen, judge⟩ := env
    by_cases hr1 : results = []
    · subst hr1; rw [ask_empty, ask_async_empty]
    · by_cases hr2 : chunkRows results = []
      · rw [ask_malformed results gen judge st hr1 hr2,
          ask_async_malformed results gen judge st hr1 hr2]
      · cases gen with
        | error e =>
          rw [ask_gen_error results e judge st hr2, ask_async_gen_error results e judge st hr2]
        | ok text =>
          rw [ask_gen_ok results text judge st hr2, ask_async_gen_ok results text judge st hr2,
            validate_eq_async_of_not_timeout st judge (by exact henv)]
  · obtain ⟨results, gen, judge⟩ := env2
    by_cases hr1 : results = []
    · subst hr1; rw [ask_empty, ask_async_empty]
    · by_cases hr2 : chunkRows results = []
      · rw [ask_malformed results gen judge st hr1 hr2,
          ask_async_malformed results gen judge st hr1 hr2]
      · cases gen with
        | error e =>
          rw [ask_gen_error results e judge st hr2, ask_async_gen_error results e judge st hr2]
        | ok text =>
          rw [ask_gen_ok results text judge st hr2, ask_async_gen_ok results text judge st hr2]
          exact validate_state_eq_async st judge

/-- Witness for C10's amended equivalence at a concrete query. -/
theorem C10_witness :
    ((Env.mk [{ score := 0, payload := some { text := some "T", file := some "a.pdf", page := some 3 } }]
        (.ok "ans") (.ok "VALID")).judge.isTimeout = false
     ∧ (JudgeResult.ok "VALID").isTimeout = false)
    ∧ (GroundingValidator.validate initialCircuit (.ok "VALID")
        = GroundingValidator.validate_async initialCircuit (.ok "VALID")
    ∧ RAGEngine.ask
        (Env.mk [{ score := 0, payload := some { text := some "T", file := some "a.pdf", page := some 3 } }]
          (.ok "ans") (.ok "VALID")) initialCircuit
      = RAGEngine.ask_async
        (Env.mk [{ score := 0, payload := some { text := some "T", file := some "a.pdf", page := some 3 } }]
          (.ok "ans") (.ok "VALID")) initialCircuit
    ∧ (GroundingValidator.validate initialCircuit (.timeout "late")).2
      = (GroundingValidator.validate_async initialCircuit (.timeout "late")).2
    ∧ (RAGEngine.ask (Env.mk [] (.ok "a") (.timeout "late")) initialCircuit).2
      = (RAGEngine.ask_async (Env.mk [] (.ok "a") (.timeout "late")) initialCircuit).2) :=
  ⟨⟨by decide, by decide⟩,
   C10_sync_async_agree_except_timeout
     (Env.mk [{ score := 0, payload := some { text := some "T", file := some "a.pdf", page := some 3 } }]
       (.ok "ans") (.ok "VALID"))
     (Env.mk [] (.ok "a") (.timeout "late"))
     initialCircuit (.ok "VALID") (.timeout "late") (by decide) (by decide)⟩

/-! ### Source-list helper lemmas -/

/-- The emitted source list is sorted lexicographically. -/
theorem sortedSources_sorted (l : List String) : (sortedSources l).Sorted (· ≤ ·) :=
  List.sorted_insertionSort _ _

/-- The emitted source list has no duplicate labels. -/
theorem sortedSources_nodup (l : List String) : (sortedSources l).Nodup :=
  ((List.perm_insertionSort _ _).nodup_iff).mpr (List.nodup_dedup l)

/-- Sorting and deduplicating a non-empty label list stays non-empty. -/
theorem sortedSources_ne_nil {l : List String} (h : l ≠ []) : sortedSources l ≠ [] := by
  intro hs
  have hperm := List.perm_insertionSort (α := String) (· ≤ ·) l.dedup
  rw [show sortedSources l = List.insertionSort (· ≤ ·) l.dedup from rfl] at hs
  rw [hs] at hperm
  have h0 : l.dedup.length = 0 := by simpa using hperm.length_eq.symm
  exact h ((List.dedup_eq_nil l).mp (List.length_eq_zero.mp h0))

/-! ### Claim C5 -/

/-- C5: when generation succeeded but the validation outcome is not
valid, the pipeline returns the fixed validation-failed answer string in
place of the generated text, while still returning the collected sorted
sources and the computed confidence, and the validator's state update is
kept. -/
theorem C5_validation_failure_suppresses_answer (env : Env) (st : CircuitState) (text : String)
    (hgen : env.gen = .ok text)
    (hrows : chunkRows env.results ≠ [])
    (hvalid : (GroundingValidator.validate_async st env.judge).1.is_valid = false)
    (hvalid2 : (GroundingValidator.validate st env.judge).1.is_valid = false) :
    RAGEngine.ask_async env st =
      ({ answer := VALIDATION_FAILED_ANSWER,
         sources := sortedSources ((chunkRows env.results).map ChunkRow.label),
         validation := (GroundingValidator.validate_async st env.judge).1,
         confidence := ConfidenceScorer.score ((chunkRows env.results).map ChunkRow.score)
           ((chunkRows env.results).map ChunkRow.text).length
           (GroundingValidator.validate_async st env.judge).1.is_valid },
       (GroundingValidator.validate_async st env.judge).2)
    ∧ RAGEngine.ask env st =
      ({ answer := VALIDATION_FAILED_ANSWER,
         sources := sortedSources ((chunkRows env.results).map ChunkRow.label),
         validation := (GroundingValidator.validate st env.judge).1,
         confidence := ConfidenceScorer.score ((chunkRows env.results).map ChunkRow.score)
           ((chunkRows env.results).map ChunkRow.text).length
           (GroundingValidator.validate st env.judge).1.is_valid },
       (GroundingValidator.validate st env.judge).2) := by
  obtain ⟨results, gen, judge⟩ := env
  cases hgen
  constructor
  · rw [ask_async_gen_ok results text judge st hrows, hvalid]
    simp
  · rw [ask_gen_ok results text judge st hrows, hvalid2]
    simp

/-- Witness for C5 at a concrete rejecting judge. -/
theorem C5_witness :
    ((Env.mk [{ score := 0, payload := some { text := some "T", file := some "a.pdf", page := some 3 } }]
        (.ok "ans") (.ok "Nope")).gen = .ok "ans"
     ∧ chunkRows (Env.mk [{ score := 0, payload := some { text := some "T", file := some "a.pdf", page := some 3 } }]
        (.ok "ans") (.ok "Nope")).results ≠ []
     ∧ (GroundingValidator.validate_async initialCircuit
          (Env.mk [{ score := 0, payload := some { text := some "T", file := some "a.pdf", page := some 3 } }]
            (.ok "ans") (.ok "Nope")).judge).1.is_valid = false
     ∧ (GroundingValidator.validate initialCircuit
          (Env.mk [{ score := 0, payload := some { text := some "T", file := some "a.pdf", page := some 3 } }]
            (.ok "ans") (.ok "Nope")).judge).1.is_valid = false)
    ∧ ((RAGEngine.ask_async
        (Env.mk [{ score := 0, payload := some { text := some "T", file := some "a.pdf", page := some 3 } }]
          (.ok "ans") (.ok "Nope")) initialCircuit).1.answer = VALIDATION_FAILED_ANSWER
    ∧ (RAGEngine.ask
        (Env.mk [{ score := 0, payload := some { text := some "T", file := some "a.pdf", page := some 3 } }]
          (.ok "ans") (.ok "Nope")) initialCircuit).1.answer = VALIDATION_FAILED_ANSWER) := by
  refine ⟨⟨rfl, by decide, by decide, by decide⟩, ?_⟩
  have h := C5_validation_failure_suppresses_answer
    (Env.mk [{ score := 0, payload := some { text := some "T", file := some "a.pdf", page := some 3 } }]
      (.ok "ans") (.ok "Nope")) initialCircuit "ans" rfl (by decide) (by decide) (by decide)
  exact ⟨by rw [h.1], by rw [h.2]⟩

/-! ### Claim C6 -/

/-- C6: a query with zero vector-store results returns the fixed
no-answer result with empty sources, the Invalid reason about missing
context and confidence 0, leaving the circuit state untouched and
independent of the generation and judge behaviours; a query whose
retrieved points are all dropped by the completeness filter returns the
same fast-reject result with the malformed-chunks reason. -/
theorem C6_fast_reject_paths (env1 env2 : Env) (st : CircuitState)
    (h1 : env1.results = [])
    (h2 : env2.results ≠ []) (h2b : chunkRows env2.results = []) :
    RAGEngine.ask_async env1 st =
      ({ answer := DEFAULT_NO_ANSWER, sources := [],
         validation := { is_valid := false, reason := some "No relevant context retrieved." },
         confidence := 0 }, st)
    ∧ RAGEngine.ask_async env2 st =
      ({ answer := DEFAULT_NO_ANSWER, sources := [],
         validation := { is_valid := false,
                         reason := some "Retrieved chunks were empty or malformed." },
         confidence := 0 }, st) := by
  constructor
  · obtain ⟨results, gen, judge⟩ := env1
    cases h1
    exact ask_async_empty gen judge st
  · obtain ⟨results, gen, judge⟩ := env2
    exact ask_async_malformed results gen judge st h2 h2b

/-- Witness for C6 with an empty response and an all-malformed
response. -/
theorem C6_witness :
    ((Env.mk [] (.ok "g") (.ok "VALID")).results = []
     ∧ (Env.mk [{ score := 0, payload := none }] (.error "x") (.timeout "t")).results ≠ []
     ∧ chunkRows (Env.mk [{ score := 0, payload := none }] (.error "x") (.timeout "t")).results = [])
    ∧ (RAGEngine.ask_async (Env.mk [] (.ok "g") (.ok "VALID")) initialCircuit =
        ({ answer := DEFAULT_NO_ANSWER, sources := [],
           validation := { is_valid := false, reason := some "No relevant context retrieved." },
           confidence := 0 }, initialCircuit)
    ∧ RAGEngine.ask_async (Env.mk [{ score := 0, payload := none }] (.error "x") (.timeout "t")) initialCircuit =
        ({ answer := DEFAULT_NO_ANSWER, sources := [],
           validation := { is_valid := false,
                           reason := some "Retrieved chunks were empty or malformed." },
           confidence := 0 }, initialCircuit)) :=
  ⟨⟨rfl, by decide, by decide⟩,
   C6_fast_reject_paths (Env.mk [] (.ok "g") (.ok "VALID"))
     (Env.mk [{ score := 0, payload := none }] (.error "x") (.timeout "t"))
     initialCircuit rfl (by decide) (by decide)⟩

/-! ### Claim C7 -/

/-- C7: when the generation call raises, the pipeline returns the fixed
LLM-error answer with the non-empty sorted sources collected from the
successful retrieval, Invalid with the LLM error detail and confidence
0, leaving the circuit state untouched; the failure does not propagate
to the caller, the call being a total function of the query. -/
theorem C7_generation_failure_isolated (env : Env) (st : CircuitState) (e : String)
    (hgen : env.gen = .error e)
    (hrows : chunkRows env.results ≠ []) :
    RAGEngine.ask_async env st =
      ({ answer := LLM_ERROR_ANSWER,
         sources := sortedSources ((chunkRows env.results).map ChunkRow.label),
         validation := { is_valid := false, reason := some ("LLM error: " ++ e) },
         confidence := 0 }, st)
    ∧ sortedSources ((chunkRows env.results).map ChunkRow.label) ≠ []
    ∧ (sortedSources ((chunkRows env.results).map ChunkRow.label)).Sorted (· ≤ ·) := by
  obtain ⟨results, gen, judge⟩ := env
  cases hgen
  refine ⟨ask_async_gen_error results e judge st hrows, ?_, sortedSources_sorted _⟩
  apply sortedSources_ne_nil
  intro hm
  exact hrows ((List.map_eq_nil).mp hm)

/-- Witness for C7 at a concrete failing generation call. -/
theorem C7_witness :
    ((Env.mk [{ score := 0, payload := some { text := some "T", file := some "a.pdf", page := some 3 } }]
        (.error "boom") (.ok "VALID")).gen = .error "boom"
     ∧ chunkRows (Env.mk [{ score := 0, payload := some { text := some "T", file := some "a.pdf", page := some 3 } }]
        (.error "boom") (.ok "VALID")).results ≠ [])
    ∧ (RAGEngine.ask_async
        (Env.mk [{ score := 0, payload := some { text := some "T", file := some "a.pdf", page := some 3 } }]
          (.error "boom") (.ok "VALID")) initialCircuit =
      ({ answer := LLM_ERROR_ANSWER,
         sources := sortedSources ((chunkRows (Env.mk [{ score := 0, payload := some { text := some "T", file := some "a.pdf", page := some 3 } }]
            (.error "boom") (.ok "VALID")).results).map ChunkRow.label),
         validation := { is_valid := false, reason := some ("LLM error: " ++ "boom") },
         confidence := 0 }, initialCircuit)
    ∧ sortedSources ((chunkRows (Env.mk [{ score := 0, payload := some { text := some "T", file := some "a.pdf", page := some 3 } }]
        (.error "boom") (.ok "VALID")).results).map ChunkRow.label) ≠ []
    ∧ (sortedSources ((chunkRows (Env.mk [{ score := 0, payload := some { text := some "T", file := some "a.pdf", page := some 3 } }]
        (.error "boom") (.ok "VALID")).results).map ChunkRow.label)).Sorted (· ≤ ·)) :=
  ⟨⟨rfl, by decide⟩,
   C7_generation_failure_isolated
     (Env.mk [{ score := 0, payload := some { text := some "T", file := some "a.pdf", page := some 3 } }]
       (.error "boom") (.ok "VALID")) initialCircuit "boom" rfl (by decide)⟩

/-! ### Claim C8 -/

/-- The sources field of any ask_async result is either empty or the
sorted deduplication of the collected labels. -/
theorem ask_async_sources_cases (env : Env) (st : CircuitState) :
    (RAGEngine.ask_async env st).1.sources = []
    ∨ ∃ l, (RAGEngine.ask_async env st).1.sources = sortedSources l := by
  obtain ⟨results, gen, judge⟩ := env
  by_cases h1 : results = []
  · subst h1; rw [ask_async_empty]; left; rfl
  · by_cases h2 : chunkRows results = []
    · rw [ask_async_malformed results gen judge st h1 h2]; left; rfl
    · cases gen with
      | error e =>
        rw [ask_async_gen_error results e judge st h2]
        right; exact ⟨(chunkRows results).map ChunkRow.label, rfl⟩
      | ok text =>
        rw [ask_async_gen_ok results text judge st h2]
        right
        refine ⟨(chunkRows results).map ChunkRow.label, ?_⟩
        cases hv : (GroundingValidator.validate_async st judge).1.is_valid <;> simp [hv]

/-- The sources field of any ask result is either empty or the sorted
deduplication of the collected labels. -/
theorem ask_sources_cases (env : Env) (st : CircuitState) :
    (RAGEngine.ask env st).1.sources = []
    ∨ ∃ l, (RAGEngine.ask env st).1.sources = sortedSources l := by
  obtain ⟨results, gen, judge⟩ := env
  by_cases h1 : results = []
  · subst h1; rw [ask_empty]; left; rfl
  · by_cases h2 : chunkRows results = []
    · rw [ask_malformed results gen judge st h1 h2]; left; rfl
    · cases gen with
      | error e =>
        rw [ask_gen_error results e judge st h2]
        right; exact ⟨(chunkRows results).map ChunkRow.label, rfl⟩
      | ok text =>
        rw [ask_gen_ok results text judge st h2]
        right
        refine ⟨(chunkRows results).map ChunkRow.label, ?_⟩
        cases hv : (GroundingValidator.validate st judge).1.is_valid <;> simp [hv]

/-- C8: every result produced by either pipeline entry point carries a
sources list that is sorted lexicographically and free of duplicates;
chunks sharing the same file and page contribute a single file#page-N
label because the labels pass through a set before sorting. -/
theorem C8_sources_sorted_and_deduplicated (env : Env) (st : CircuitState) :
    ((RAGEngine.ask_async env st).1.sources).Sorted (· ≤ ·)
    ∧ ((RAGEngine.ask_async env st).1.sources).Nodup
    ∧ ((RAGEngine.ask env st).1.sources).Sorted (· ≤ ·)
    ∧ ((RAGEngine.ask env st).1.sources).Nodup := by
  have hasync := ask_async_sources_cases env st
  have hsync := ask_sources_cases env st
  have f : ∀ xs : List String,
      (xs = [] ∨ ∃ l, xs = sortedSources l) → xs.Sorted (· ≤ ·) ∧ xs.Nodup := by
    intro xs h
    rcases h with h | ⟨l, h⟩ <;> subst h
    · exact ⟨List.sorted_nil, List.nodup_nil⟩
    · exact ⟨sortedSources_sorted l, sortedSources_nodup l⟩
  obtain ⟨s1, s2⟩ := f _ hasync
  obtain ⟨s3, s4⟩ := f _ hsync
  exact ⟨s1, s2, s3, s4⟩
